import Mathlib

/-!
Shallow embedding of the map2poster dashboard (`src/main.py`) and of the
engine components it delegates to.  The dashboard code is embedded directly
from `src/main.py`; the engine routines (`map2poster.core` and
`map2poster.font_management`) are not part of the visible sources, so they
are modelled from the specification, each marked in its doc comment.
External capabilities (geocoding service, street-network data source, font
catalog) are abstracted as a `World` of deterministic oracles, and cache
state is threaded explicitly.
-/

namespace Map2Poster

/-- Association-list lookup: first value whose key equals `k`. -/
def lookupA {α β : Type} [DecidableEq α] (k : α) : List (α × β) → Option β
  | [] => none
  | (a, b) :: t => if a = k then some b else lookupA k t

/-- A geographic point, latitude and longitude (numeric values embedded as rationals). -/
structure Point where
  lat : ℚ
  lon : ℚ
deriving DecidableEq

/-- Modelled from the spec: the `FontSet` record of §3 — requested family,
resolved asset, and whether the theme default was substituted. -/
structure FontSet where
  requested_family : Option String
  resolved : String
  is_fallback : Bool
deriving DecidableEq

/-- Modelled from the spec: a visual theme; only the fields the claims touch
(name and default font) are carried. -/
structure Theme where
  name : String
  default_font : String
deriving DecidableEq

/-- The on-disk cache root (`CACHE_DIR` of `map2poster.core`): one directory,
created lazily, holding three independent namespaces (§6) — geocode results
keyed by normalized `"city,country"`, street networks keyed by rounded point
plus radius, font assets keyed by family name. -/
structure CacheRoot where
  rootExists : Bool
  geo : List (List Char × Point)
  net : List ((ℤ × ℤ × ℕ) × ℕ)
  fonts : List (String × String)
deriving DecidableEq

/-- The Streamlit `st.cache_data` memo for `get_cached_coordinates`: an
in-memory map keyed by the raw argument values, kept across reruns of the
script and unaffected by filesystem changes. -/
abbrev StMemo := List ((String × String) × Point)

/-- The external capabilities: geocoding service, street-network data source
(network data abstracted to an identifier), and font catalog (`none` models a
fetch failure). All are deterministic oracles. -/
structure World where
  geocode : String → String → Point
  fetchNet : ℤ × ℤ × ℕ → ℕ
  fetchFont : String → Option String

/-- Strip leading and trailing whitespace from a character list (the Python
`str.strip()` used for normalization, restricted to ASCII whitespace). -/
def trimChars (cs : List Char) : List Char :=
  ((cs.dropWhile Char.isWhitespace).reverse.dropWhile Char.isWhitespace).reverse

/-- Case-fold a character list (the Python `str.lower()` used for
normalization, restricted to ASCII letters). -/
def lowerChars (cs : List Char) : List Char :=
  cs.map Char.toLower

/-- Modelled from the spec: the geocode cache key — `city`/`country`
normalized by trim and case-fold, joined as `"city,country"` (§4.1, §6);
represented as a character list. -/
def geoKey (city country : String) : List Char :=
  lowerChars (trimChars city.toList) ++ ',' :: lowerChars (trimChars country.toList)

/-- Result of `get_coordinates`: resolved point, updated disk cache, and the
number of external geocoding calls performed (0 or 1). -/
structure CoordsResult where
  point : Point
  disk : CacheRoot
  externalCalls : ℕ
deriving DecidableEq

/-- Modelled from the spec: `map2poster.core.get_coordinates` (§4.1 Location
Resolver) — normalize the query into a cache key; on a disk-cache hit return
the stored point with no external call; on a miss query the external
geocoding capability, store the result durably, and return it. -/
def get_coordinates (w : World) (disk : CacheRoot) (city country : String) :
    CoordsResult :=
  let key := geoKey city country
  match lookupA key disk.geo with
  | some p => { point := p, disk := disk, externalCalls := 0 }
  | none =>
    let p := w.geocode city country
    { point := p
      disk := { disk with rootExists := true, geo := (key, p) :: disk.geo }
      externalCalls := 1 }

/-- Result of `get_cached_coordinates`: point, updated Streamlit memo and
disk cache, and the number of external geocoding calls performed. -/
structure CachedCoordsResult where
  point : Point
  memo : StMemo
  disk : CacheRoot
  externalCalls : ℕ
deriving DecidableEq

/-- Embeds `get_cached_coordinates` of `src/main.py`: the `st.cache_data`
wrapper around `get_coordinates`, memoizing on the raw `(city, country)`
arguments. -/
def get_cached_coordinates (w : World) (memo : StMemo) (disk : CacheRoot)
    (city country : String) : CachedCoordsResult :=
  match lookupA (city, country) memo with
  | some p => { point := p, memo := memo, disk := disk, externalCalls := 0 }
  | none =>
    let r := get_coordinates w disk city country
    { point := r.point
      memo := ((city, country), r.point) :: memo
      disk := r.disk
      externalCalls := r.externalCalls }

/-- Modelled from the spec: the theme default font that font resolution falls
back to (§4.3); a fixed asset of the package. -/
def DEFAULT_FONT : String := "DejaVuSans"

/-- Modelled from the spec: `map2poster.core.load_theme` (§4.2 Theme
Registry) — deterministic, repeated loads value-equal; only the fields the
claims touch are produced. -/
def load_theme (name : String) : Theme :=
  { name := name, default_font := DEFAULT_FONT }

/-- Result of `load_fonts`: resolved font set, updated disk cache, number of
external font-catalog calls. -/
structure FontsResult where
  fonts : FontSet
  disk : CacheRoot
  externalCalls : ℕ
deriving DecidableEq

/-- Modelled from the spec: `map2poster.font_management.load_fonts` (§4.3
Font Manager) — check the font cache; on a miss fetch from the external font
catalog and persist; on fetch failure fall back to the theme default font
with `is_fallback := true` instead of failing the render. -/
def load_fonts (w : World) (disk : CacheRoot) (family : String) : FontsResult :=
  match lookupA family disk.fonts with
  | some asset =>
    { fonts := { requested_family := some family, resolved := asset, is_fallback := false }
      disk := disk, externalCalls := 0 }
  | none =>
    match w.fetchFont family with
    | some asset =>
      { fonts := { requested_family := some family, resolved := asset, is_fallback := false }
        disk := { disk with rootExists := true, fonts := (family, asset) :: disk.fonts }
        externalCalls := 1 }
    | none =>
      { fonts := { requested_family := some family, resolved := DEFAULT_FONT, is_fallback := true }
        disk := disk, externalCalls := 1 }

/-- Modelled from the spec: the street-network cache key — the point rounded
to a fixed coordinate precision (three decimal places here) together with the
radius (§4.4, §6). -/
def netKey (p : Point) (dist : ℕ) : ℤ × ℤ × ℕ :=
  (round (p.lat * 1000), round (p.lon * 1000), dist)

/-- The rendered poster artifact: output path and format, pixel dimensions
for raster output (`none` for vector formats), the composed labels, the map
center passed in, the dpi, and the font set used (`none` when no custom font
was requested). -/
structure Artifact where
  path : String
  format : String
  pixel_width : Option ℤ
  pixel_height : Option ℤ
  city_label : String
  country_label : String
  point : Point
  dpi : ℕ
  fontsUsed : Option FontSet
deriving DecidableEq

/-- The keyword arguments of the `CreatePoster` call in `src/main.py`. -/
structure PosterRequest where
  city : String
  country : String
  point : Point
  dist : ℕ
  output_file : String
  output_format : String
  theme : Theme
  width : ℚ
  height : ℚ
  display_city : Option String
  display_country : Option String
  fonts : Option FontSet
  dpi : ℕ
deriving DecidableEq

/-- Result of `create_poster`: artifact, updated disk cache, number of
external street-network fetches. -/
structure PosterResult where
  artifact : Artifact
  disk : CacheRoot
  netExternalCalls : ℕ
deriving DecidableEq

/-- Modelled from the spec: `map2poster.core.create_poster` (§4.4 Street
Network Provider and §4.5 Poster Compositor) — fetch the street network
through the disk cache keyed by rounded point and radius; establish the
canvas (raster pixel dimensions are `round(width_in * dpi)` by
`round(height_in * dpi)`, vector formats carry physical size only); compose
the city label as `display_city` if provided else `city`, likewise the
country label; export in the requested format. -/
def create_poster (w : World) (disk : CacheRoot) (req : PosterRequest) :
    PosterResult :=
  let key := netKey req.point req.dist
  let netStep : CacheRoot × ℕ :=
    match lookupA key disk.net with
    | some _ => (disk, 0)
    | none =>
      ({ disk with rootExists := true, net := (key, w.fetchNet key) :: disk.net }, 1)
  { artifact :=
      { path := req.output_file
        format := req.output_format
        pixel_width :=
          if req.output_format = "png" then some (round (req.width * (req.dpi : ℚ))) else none
        pixel_height :=
          if req.output_format = "png" then some (round (req.height * (req.dpi : ℚ))) else none
        city_label := req.display_city.getD req.city
        country_label := req.display_country.getD req.country
        point := req.point
        dpi := req.dpi
        fontsUsed := req.fonts }
    disk := netStep.1
    netExternalCalls := netStep.2 }

/-- The sidebar inputs of `src/main.py` that feed one render. -/
structure Inputs where
  city : String
  country : String
  override_lat : String
  override_lon : String
  selected_theme : String
  dist : ℕ
  width : ℚ
  height : ℚ
  display_city : String
  display_country : String
  font_family : String
  live_mode : Bool
  output_format : String
deriving DecidableEq

/-- The value of a list of decimal digit characters. -/
def digitsToNat (ds : List Char) : ℕ :=
  ds.foldl (fun a c => 10 * a + (c.toNat - 48)) 0

/-- Embeds Python `float()` on its plain decimal-literal forms: optional
surrounding whitespace, optional sign, digits with an optional fractional
part (at least one digit overall), and an optional exponent; `none` models
the `ValueError` raised on any other string.  The special forms `inf`/`nan`
and digit underscores are outside the model. -/
def pyFloat? (s : String) : Option ℚ :=
  let cs := trimChars s.toList
  let signStep : ℚ × List Char :=
    match cs with
    | '-' :: rest => (-1, rest)
    | '+' :: rest => (1, rest)
    | _ => (1, cs)
  let sgn := signStep.1
  let cs1 := signStep.2
  let ip := cs1.takeWhile Char.isDigit
  let cs2 := cs1.dropWhile Char.isDigit
  let fracStep : List Char × List Char :=
    match cs2 with
    | '.' :: rest => (rest.takeWhile Char.isDigit, rest.dropWhile Char.isDigit)
    | _ => ([], cs2)
  let fp := fracStep.1
  let cs3 := fracStep.2
  if ip.isEmpty && fp.isEmpty then none
  else
    let mant : ℚ := (digitsToNat ip : ℚ) + (digitsToNat fp : ℚ) / ((10 : ℚ) ^ fp.length)
    match cs3 with
    | [] => some (sgn * mant)
    | c :: rest =>
      if c = 'e' || c = 'E' then
        let expSign : ℤ × List Char :=
          match rest with
          | '-' :: r => (-1, r)
          | '+' :: r => (1, r)
          | _ => (1, rest)
        let ed := expSign.2.takeWhile Char.isDigit
        let rest2 := expSign.2.dropWhile Char.isDigit
        if ed.isEmpty || !rest2.isEmpty then none
        else some (sgn * mant * (10 : ℚ) ^ (expSign.1 * (digitsToNat ed : ℤ)))
      else none

/-- The observable outcome of one run of the `generate` closure of
`src/main.py`: the produced artifact if any, the updated Streamlit memo and
disk cache, whether `get_cached_coordinates` was invoked, and the counts of
external geocoding, street-network and font-catalog calls. -/
structure GenOutcome where
  artifact : Option Artifact
  memo : StMemo
  disk : CacheRoot
  geocacheInvoked : Bool
  geoExternalCalls : ℕ
  netExternalCalls : ℕ
  fontExternalCalls : ℕ
deriving DecidableEq

/-- Steps 2 through 4 of the `generate` closure, once a point is in hand:
load the theme, load custom fonts when a family was given, pick the dpi from
live mode, and call `create_poster` with the keyword arguments of
`src/main.py`. -/
def finishRender (w : World) (memo : StMemo) (disk : CacheRoot) (I : Inputs)
    (point : Point) (invoked : Bool) (geoCalls : ℕ) : GenOutcome :=
  let theme := load_theme I.selected_theme
  let fontStep : Option FontSet × CacheRoot × ℕ :=
    if I.font_family ≠ "" then
      let f := load_fonts w disk I.font_family
      (some f.fonts, f.disk, f.externalCalls)
    else (none, disk, 0)
  let dpi := if I.live_mode then 72 else 300
  let p := create_poster w fontStep.2.1
    { city := I.city
      country := I.country
      point := point
      dist := I.dist
      output_file := "tmp." ++ I.output_format
      output_format := I.output_format
      theme := theme
      width := I.width
      height := I.height
      display_city := if I.display_city ≠ "" then some I.display_city else none
      display_country := if I.display_country ≠ "" then some I.display_country else none
      fonts := fontStep.1
      dpi := dpi }
  { artifact := some p.artifact
    memo := memo
    disk := p.disk
    geocacheInvoked := invoked
    geoExternalCalls := geoCalls
    netExternalCalls := p.netExternalCalls
    fontExternalCalls := fontStep.2.2 }

/-- Embeds the `generate` closure of `src/main.py`.  Step 1 handles
coordinates: when both override fields are nonempty (Python truthiness of
strings) they are parsed with `float()` — a parse failure raises, is caught
by the surrounding `except`, and yields no artifact; otherwise the point
comes from `get_cached_coordinates`.  The remaining steps are
`finishRender`. -/
def generate (w : World) (memo : StMemo) (disk : CacheRoot) (I : Inputs) :
    GenOutcome :=
  if I.override_lat ≠ "" ∧ I.override_lon ≠ "" then
    match pyFloat? I.override_lat, pyFloat? I.override_lon with
    | some la, some lo => finishRender w memo disk I { lat := la, lon := lo } false 0
    | _, _ =>
      { artifact := none, memo := memo, disk := disk, geocacheInvoked := false
        geoExternalCalls := 0, netExternalCalls := 0, fontExternalCalls := 0 }
  else
    let r := get_cached_coordinates w memo disk I.city I.country
    finishRender w r.memo r.disk I r.point true r.externalCalls

/-- Embeds the Clear Cache button handler of `src/main.py`: when the cache
root exists, `shutil.rmtree` removes it and `mkdir` recreates it empty; the
Streamlit memo is untouched. -/
def clearCache (c : CacheRoot) : CacheRoot :=
  if c.rootExists then { rootExists := true, geo := [], net := [], fonts := [] }
  else c

/-- The coordinate step of `generate` succeeds: either the override is not
taken, or both override fields parse as floats. -/
def coordOk (I : Inputs) : Bool :=
  if I.override_lat ≠ "" ∧ I.override_lon ≠ "" then
    (pyFloat? I.override_lat).isSome && (pyFloat? I.override_lon).isSome
  else true

/-! Helper lemmas about the cache layers. -/

theorem lookupA_nil {α β : Type} [DecidableEq α] (k : α) :
    lookupA k ([] : List (α × β)) = none := rfl

theorem lookupA_cons {α β : Type} [DecidableEq α] (k a : α) (b : β) (t : List (α × β)) :
    lookupA k ((a, b) :: t) = if a = k then some b else lookupA k t := rfl

theorem get_coordinates_hit {w : World} {disk : CacheRoot} {city country : String} {p : Point}
    (h : lookupA (geoKey city country) disk.geo = some p) :
    get_coordinates w disk city country = { point := p, disk := disk, externalCalls := 0 } := by
  simp only [get_coordinates, h]

theorem get_coordinates_miss {w : World} {disk : CacheRoot} {city country : String}
    (h : lookupA (geoKey city country) disk.geo = none) :
    get_coordinates w disk city country =
      { point := w.geocode city country
        disk :=
          { rootExists := true
            geo := (geoKey city country, w.geocode city country) :: disk.geo
            net := disk.net
            fonts := disk.fonts }
        externalCalls := 1 } := by
  simp only [get_coordinates, h]

/-- After any run of `get_coordinates`, the normalized key is present in the
disk cache and maps to the returned point. -/
theorem get_coordinates_caches (w : World) (disk : CacheRoot) (city country : String) :
    lookupA (geoKey city country) (get_coordinates w disk city country).disk.geo =
      some (get_coordinates w disk city country).point := by
  cases h : lookupA (geoKey city country) disk.geo with
  | none => rw [get_coordinates_miss h]; simp [lookupA_cons]
  | some p => rw [get_coordinates_hit h]; exact h

theorem get_cached_coordinates_memo_hit {w : World} {memo : StMemo} {disk : CacheRoot}
    {city country : String} {p : Point} (h : lookupA (city, country) memo = some p) :
    get_cached_coordinates w memo disk city country =
      { point := p, memo := memo, disk := disk, externalCalls := 0 } := by
  simp only [get_cached_coordinates, h]

theorem get_cached_coordinates_memo_miss {w : World} {memo : StMemo} {disk : CacheRoot}
    {city country : String} (h : lookupA (city, country) memo = none) :
    get_cached_coordinates w memo disk city country =
      { point := (get_coordinates w disk city country).point
        memo := ((city, country), (get_coordinates w disk city country).point) :: memo
        disk := (get_coordinates w disk city country).disk
        externalCalls := (get_coordinates w disk city country).externalCalls } := by
  simp only [get_cached_coordinates, h]

theorem getD_if {α : Type} (c : Prop) [Decidable c] (x y : α) :
    (if c then some x else none).getD y = if c then x else y := by
  split <;> rfl

theorem get_coordinates_net (w : World) (disk : CacheRoot) (city country : String) :
    (get_coordinates w disk city country).disk.net = disk.net := by
  cases h : lookupA (geoKey city country) disk.geo with
  | some p => rw [get_coordinates_hit h]
  | none => rw [get_coordinates_miss h]

theorem get_coordinates_fonts (w : World) (disk : CacheRoot) (city country : String) :
    (get_coordinates w disk city country).disk.fonts = disk.fonts := by
  cases h : lookupA (geoKey city country) disk.geo with
  | some p => rw [get_coordinates_hit h]
  | none => rw [get_coordinates_miss h]

theorem get_cached_coordinates_net (w : World) (memo : StMemo) (disk : CacheRoot)
    (city country : String) :
    (get_cached_coordinates w memo disk city country).disk.net = disk.net := by
  cases h : lookupA (city, country) memo with
  | some p => rw [get_cached_coordinates_memo_hit h]
  | none => rw [get_cached_coordinates_memo_miss h]; exact get_coordinates_net w disk city country

theorem get_cached_coordinates_fonts (w : World) (memo : StMemo) (disk : CacheRoot)
    (city country : String) :
    (get_cached_coordinates w memo disk city country).disk.fonts = disk.fonts := by
  cases h : lookupA (city, country) memo with
  | some p => rw [get_cached_coordinates_memo_hit h]
  | none =>
    rw [get_cached_coordinates_memo_miss h]; exact get_coordinates_fonts w disk city country

theorem load_fonts_net (w : World) (disk : CacheRoot) (family : String) :
    (load_fonts w disk family).disk.net = disk.net := by
  unfold load_fonts
  cases lookupA family disk.fonts with
  | some a => rfl
  | none => cases w.fetchFont family with
    | some a => rfl
    | none => rfl

theorem load_fonts_miss_calls (w : World) (disk : CacheRoot) (family : String)
    (h : lookupA family disk.fonts = none) :
    (load_fonts w disk family).externalCalls = 1 := by
  unfold load_fonts
  rw [h]
  cases w.fetchFont family with
  | some a => rfl
  | none => rfl

theorem load_fonts_fallback (w : World) (disk : CacheRoot) (family : String)
    (hmiss : lookupA family disk.fonts = none) (hfail : w.fetchFont family = none) :
    (load_fonts w disk family).fonts =
      { requested_family := some family, resolved := DEFAULT_FONT, is_fallback := true } := by
  unfold load_fonts
  rw [hmiss, hfail]

/-! Projections of `finishRender`. -/

theorem finishRender_geocacheInvoked (w : World) (m : StMemo) (d : CacheRoot) (I : Inputs)
    (pt : Point) (b : Bool) (n : ℕ) :
    (finishRender w m d I pt b n).geocacheInvoked = b := rfl

theorem finishRender_geoExternalCalls (w : World) (m : StMemo) (d : CacheRoot) (I : Inputs)
    (pt : Point) (b : Bool) (n : ℕ) :
    (finishRender w m d I pt b n).geoExternalCalls = n := rfl

theorem finishRender_artifact_isSome (w : World) (m : StMemo) (d : CacheRoot) (I : Inputs)
    (pt : Point) (b : Bool) (n : ℕ) :
    (finishRender w m d I pt b n).artifact.isSome = true := rfl

theorem finishRender_artifact_point (w : World) (m : StMemo) (d : CacheRoot) (I : Inputs)
    (pt : Point) (b : Bool) (n : ℕ) :
    (finishRender w m d I pt b n).artifact.map Artifact.point = some pt := rfl

theorem finishRender_artifact_dpi (w : World) (m : StMemo) (d : CacheRoot) (I : Inputs)
    (pt : Point) (b : Bool) (n : ℕ) :
    (finishRender w m d I pt b n).artifact.map Artifact.dpi =
      some (if I.live_mode then 72 else 300) := rfl

theorem finishRender_artifact_city_label (w : World) (m : StMemo) (d : CacheRoot) (I : Inputs)
    (pt : Point) (b : Bool) (n : ℕ) :
    (finishRender w m d I pt b n).artifact.map Artifact.city_label =
      some (if I.display_city ≠ "" then I.display_city else I.city) := by
  show some ((if I.display_city ≠ "" then some I.display_city else none).getD I.city) = _
  rw [getD_if]

theorem finishRender_artifact_country_label (w : World) (m : StMemo) (d : CacheRoot) (I : Inputs)
    (pt : Point) (b : Bool) (n : ℕ) :
    (finishRender w m d I pt b n).artifact.map Artifact.country_label =
      some (if I.display_country ≠ "" then I.display_country else I.country) := by
  show some ((if I.display_country ≠ "" then some I.display_country else none).getD I.country) = _
  rw [getD_if]

theorem finishRender_artifact_fontsUsed (w : World) (m : StMemo) (d : CacheRoot) (I : Inputs)
    (pt : Point) (b : Bool) (n : ℕ) :
    (finishRender w m d I pt b n).artifact.map Artifact.fontsUsed =
      some (if I.font_family ≠ "" then some (load_fonts w d I.font_family).fonts else none) := by
  by_cases h : I.font_family ≠ ""
  · simp only [finishRender, if_pos h]; rfl
  · simp only [finishRender, if_neg h]; rfl

theorem finishRender_fontExternalCalls (w : World) (m : StMemo) (d : CacheRoot) (I : Inputs)
    (pt : Point) (b : Bool) (n : ℕ) :
    (finishRender w m d I pt b n).fontExternalCalls =
      if I.font_family ≠ "" then (load_fonts w d I.font_family).externalCalls else 0 := by
  by_cases h : I.font_family ≠ ""
  · simp only [finishRender, if_pos h]
  · simp only [finishRender, if_neg h]

/-- When the coordinate step succeeds, `generate` is a `finishRender` call on
a state whose street-network and font cache namespaces are those of the
input disk state. -/
theorem generate_cases (w : World) (memo : StMemo) (disk : CacheRoot) (I : Inputs)
    (hc : coordOk I = true) :
    ∃ pt m2 d2 b n, generate w memo disk I = finishRender w m2 d2 I pt b n ∧
      d2.net = disk.net ∧ d2.fonts = disk.fonts := by
  unfold generate
  by_cases hov : I.override_lat ≠ "" ∧ I.override_lon ≠ ""
  · rw [if_pos hov]
    unfold coordOk at hc
    rw [if_pos hov] at hc
    rw [Bool.and_eq_true] at hc
    obtain ⟨hla, hlo⟩ := hc
    cases ha : pyFloat? I.override_lat with
    | none => rw [ha] at hla; exact absurd hla (by simp)
    | some la =>
      cases hb : pyFloat? I.override_lon with
      | none => rw [hb] at hlo; exact absurd hlo (by simp)
      | some lo =>
        exact ⟨{ lat := la, lon := lo }, memo, disk, false, 0, rfl, rfl, rfl⟩
  · rw [if_neg hov]
    exact ⟨_, _, _, _, _, rfl,
      get_cached_coordinates_net w memo disk I.city I.country,
      get_cached_coordinates_fonts w memo disk I.city I.country⟩

/-! Concrete scenario data for witnesses and counterexamples. -/

/-- A deterministic sample world whose external capabilities all succeed. -/
def demoWorld : World :=
  { geocode := fun _ _ => { lat := 40, lon := -74 }
    fetchNet := fun _ => 0
    fetchFont := fun _ => some "asset" }

/-- The sidebar defaults of `src/main.py`: New York / USA, terracotta theme,
12x16 inches, radius 12000, no overrides, png, live mode off. -/
def demoInputs : Inputs :=
  { city := "New York", country := "USA", override_lat := "", override_lon := ""
    selected_theme := "terracotta", dist := 12000, width := 12, height := 16
    display_city := "", display_country := "", font_family := ""
    live_mode := false, output_format := "png" }

/-- A cache root before first use: nothing on disk. -/
def emptyDisk : CacheRoot := { rootExists := false, geo := [], net := [], fonts := [] }

/-- The demo inputs with an explicit coordinate override typed in. -/
def overrideInputs : Inputs :=
  { demoInputs with override_lat := "40.7128", override_lon := "-74.0060" }

/-! The claims. -/

/-- C1: when an explicit coordinate override is supplied (both fields
nonempty), the pipeline performs no geocoding call — neither
`get_cached_coordinates` nor the external geocoder — regardless of the city
and country values, and whenever an artifact is produced its center is
exactly the parsed override point. -/
theorem C1_override_bypasses_geocoding (w : World) (memo : StMemo) (disk : CacheRoot)
    (I : Inputs) (h1 : I.override_lat ≠ "") (h2 : I.override_lon ≠ "") :
    (generate w memo disk I).geocacheInvoked = false ∧
    (generate w memo disk I).geoExternalCalls = 0 ∧
    (generate w memo disk I).artifact.map Artifact.point =
      (pyFloat? I.override_lat).bind
        (fun la => (pyFloat? I.override_lon).map (fun lo => { lat := la, lon := lo })) := by
  unfold generate
  rw [if_pos ⟨h1, h2⟩]
  cases ha : pyFloat? I.override_lat with
  | none =>
    cases hb : pyFloat? I.override_lon with
    | none => exact ⟨rfl, rfl, rfl⟩
    | some lo => exact ⟨rfl, rfl, rfl⟩
  | some la =>
    cases hb : pyFloat? I.override_lon with
    | none => exact ⟨rfl, rfl, rfl⟩
    | some lo =>
      exact ⟨rfl, rfl, finishRender_artifact_point w memo disk I { lat := la, lon := lo } false 0⟩

/-- C1 witness: the override `("40.7128", "-74.0060")` at the default city
and country runs with no geocoding and centers on the parsed override. -/
theorem C1_witness :
    (overrideInputs.override_lat ≠ "" ∧ overrideInputs.override_lon ≠ "") ∧
    ((generate demoWorld [] emptyDisk overrideInputs).geocacheInvoked = false ∧
     (generate demoWorld [] emptyDisk overrideInputs).geoExternalCalls = 0 ∧
     (generate demoWorld [] emptyDisk overrideInputs).artifact.map Artifact.point =
       (pyFloat? overrideInputs.override_lat).bind
         (fun la => (pyFloat? overrideInputs.override_lon).map
           (fun lo => { lat := la, lon := lo }))) :=
  ⟨⟨by decide, by decide⟩,
   C1_override_bypasses_geocoding demoWorld [] emptyDisk overrideInputs (by decide) (by decide)⟩

/-- C4: resolving the same `(city, country)` pair twice returns identical
coordinates, and the second call performs no external geocoding call. -/
theorem C4_resolution_idempotent (w : World) (memo : StMemo) (disk : CacheRoot)
    (city country : String) :
    (get_cached_coordinates w
        (get_cached_coordinates w memo disk city country).memo
        (get_cached_coordinates w memo disk city country).disk city country).point =
      (get_cached_coordinates w memo disk city country).point ∧
    (get_cached_coordinates w
        (get_cached_coordinates w memo disk city country).memo
        (get_cached_coordinates w memo disk city country).disk city country).externalCalls = 0 := by
  cases h : lookupA (city, country) memo with
  | some p => simp [get_cached_coordinates_memo_hit h]
  | none =>
    have h2 : lookupA (city, country)
        (((city, country), (get_coordinates w disk city country).point) :: memo) =
        some (get_coordinates w disk city country).point := by
      simp [lookupA_cons]
    simp [get_cached_coordinates_memo_miss h, get_cached_coordinates_memo_hit h2]

/-- C3: for city/country inputs that differ only in surrounding whitespace or
letter case, resolution normalizes to the same cache key, so the second call
is served from cache: it returns the identical point and performs no external
geocoding call. -/
theorem C3_normalized_key_cache_hit (w : World) (memo : StMemo) (disk : CacheRoot)
    (c1 co1 c2 co2 : String)
    (hcity : lowerChars (trimChars c2.toList) = lowerChars (trimChars c1.toList))
    (hcountry : lowerChars (trimChars co2.toList) = lowerChars (trimChars co1.toList))
    (hm1 : lookupA (c1, co1) memo = none)
    (hm2 : lookupA (c2, co2) memo = none) :
    (get_cached_coordinates w
        (get_cached_coordinates w memo disk c1 co1).memo
        (get_cached_coordinates w memo disk c1 co1).disk c2 co2).point =
      (get_cached_coordinates w memo disk c1 co1).point ∧
    (get_cached_coordinates w
        (get_cached_coordinates w memo disk c1 co1).memo
        (get_cached_coordinates w memo disk c1 co1).disk c2 co2).externalCalls = 0 := by
  have hkey : geoKey c2 co2 = geoKey c1 co1 := by
    unfold geoKey; rw [hcity, hcountry]
  simp only [get_cached_coordinates_memo_miss hm1]
  by_cases heq : (c1, co1) = (c2, co2)
  · have h2 : lookupA (c2, co2)
        (((c1, co1), (get_coordinates w disk c1 co1).point) :: memo) =
        some (get_coordinates w disk c1 co1).point := by
      simp [lookupA_cons, heq]
    simp [get_cached_coordinates_memo_hit h2]
  · have h2 : lookupA (c2, co2)
        (((c1, co1), (get_coordinates w disk c1 co1).point) :: memo) = none := by
      simp [lookupA_cons, heq, hm2]
    have h3 : lookupA (geoKey c2 co2) (get_coordinates w disk c1 co1).disk.geo =
        some (get_coordinates w disk c1 co1).point := by
      rw [hkey]; exact get_coordinates_caches w disk c1 co1
    simp [get_cached_coordinates_memo_miss h2, get_coordinates_hit h3]

/-- C3 witness: `("New York", "USA")` then `("new york", " USA ")` from a
fresh session — the variant call is a cache hit with no external call. -/
theorem C3_witness :
    (lowerChars (trimChars "new york".toList) = lowerChars (trimChars "New York".toList) ∧
     lowerChars (trimChars " USA ".toList) = lowerChars (trimChars "USA".toList)) ∧
    ((get_cached_coordinates demoWorld
        (get_cached_coordinates demoWorld [] emptyDisk "New York" "USA").memo
        (get_cached_coordinates demoWorld [] emptyDisk "New York" "USA").disk
        "new york" " USA ").point =
      (get_cached_coordinates demoWorld [] emptyDisk "New York" "USA").point ∧
     (get_cached_coordinates demoWorld
        (get_cached_coordinates demoWorld [] emptyDisk "New York" "USA").memo
        (get_cached_coordinates demoWorld [] emptyDisk "New York" "USA").disk
        "new york" " USA ").externalCalls = 0) :=
  ⟨⟨by decide, by decide⟩,
   C3_normalized_key_cache_hit demoWorld [] emptyDisk "New York" "USA" "new york" " USA "
     (by decide) (by decide) rfl rfl⟩

/-- A sample compositor request mirroring the dashboard defaults. -/
def demoRequest : PosterRequest :=
  { city := "New York", country := "USA", point := { lat := 40, lon := -74 }
    dist := 12000, output_file := "tmp.png", output_format := "png"
    theme := load_theme "terracotta", width := 12, height := 16
    display_city := none, display_country := none, fonts := none, dpi := 300 }

/-- C6: for all positive width, height and dpi, rendering to the raster
format produces an artifact with pixel dimensions `round(width_in * dpi)` by
`round(height_in * dpi)`. -/
theorem C6_raster_pixel_dimensions (w : World) (disk : CacheRoot) (req : PosterRequest)
    (hfmt : req.output_format = "png")
    (_hw : 0 < req.width) (_hh : 0 < req.height) (_hdpi : 0 < req.dpi) :
    (create_poster w disk req).artifact.pixel_width =
      some (round (req.width * (req.dpi : ℚ))) ∧
    (create_poster w disk req).artifact.pixel_height =
      some (round (req.height * (req.dpi : ℚ))) := by
  simp [create_poster, hfmt]

/-- C6 witness: the 12x16 inch request at 300 dpi. -/
theorem C6_witness :
    (demoRequest.output_format = "png" ∧ 0 < demoRequest.width ∧
     0 < demoRequest.height ∧ 0 < demoRequest.dpi) ∧
    ((create_poster demoWorld emptyDisk demoRequest).artifact.pixel_width =
      some (round (demoRequest.width * (demoRequest.dpi : ℚ))) ∧
     (create_poster demoWorld emptyDisk demoRequest).artifact.pixel_height =
      some (round (demoRequest.height * (demoRequest.dpi : ℚ)))) :=
  ⟨⟨rfl, by decide, by decide, by decide⟩,
   C6_raster_pixel_dimensions demoWorld emptyDisk demoRequest rfl (by decide) (by decide)
     (by decide)⟩

/-- C7: the rendered city label equals `display_city` when a nonempty
`display_city` is provided and the original `city` otherwise; likewise for
the country label. -/
theorem C7_display_name_labels (w : World) (memo : StMemo) (disk : CacheRoot) (I : Inputs)
    (hc : coordOk I = true) :
    (generate w memo disk I).artifact.map Artifact.city_label =
      some (if I.display_city ≠ "" then I.display_city else I.city) ∧
    (generate w memo disk I).artifact.map Artifact.country_label =
      some (if I.display_country ≠ "" then I.display_country else I.country) := by
  obtain ⟨pt, m2, d2, b, n, heq, -, -⟩ := generate_cases w memo disk I hc
  rw [heq]
  exact ⟨finishRender_artifact_city_label w m2 d2 I pt b n,
    finishRender_artifact_country_label w m2 d2 I pt b n⟩

/-- The demo inputs with display-name overrides typed in. -/
def displayInputs : Inputs :=
  { demoInputs with display_city := "NYC", display_country := "United States" }

/-- C7 witness: display names `NYC` / `United States` become the labels. -/
theorem C7_witness :
    coordOk displayInputs = true ∧
    ((generate demoWorld [] emptyDisk displayInputs).artifact.map Artifact.city_label =
      some (if displayInputs.display_city ≠ "" then displayInputs.display_city
            else displayInputs.city) ∧
     (generate demoWorld [] emptyDisk displayInputs).artifact.map Artifact.country_label =
      some (if displayInputs.display_country ≠ "" then displayInputs.display_country
            else displayInputs.country)) :=
  ⟨by decide, C7_display_name_labels demoWorld [] emptyDisk displayInputs (by decide)⟩

/-- C9: when both override fields are nonempty but either fails to parse as a
float, generation aborts: no artifact is produced, the caches are unchanged,
and no external geocoding or street-network call is made. -/
theorem C9_unparseable_override_aborts (w : World) (memo : StMemo) (disk : CacheRoot)
    (I : Inputs) (h1 : I.override_lat ≠ "") (h2 : I.override_lon ≠ "")
    (h3 : pyFloat? I.override_lat = none ∨ pyFloat? I.override_lon = none) :
    (generate w memo disk I).artifact = none ∧
    (generate w memo disk I).memo = memo ∧
    (generate w memo disk I).disk = disk ∧
    (generate w memo disk I).geoExternalCalls = 0 ∧
    (generate w memo disk I).netExternalCalls = 0 := by
  unfold generate
  rw [if_pos ⟨h1, h2⟩]
  rcases h3 with h3 | h3
  · rw [h3]
    cases pyFloat? I.override_lon with
    | none => exact ⟨rfl, rfl, rfl, rfl, rfl⟩
    | some lo => exact ⟨rfl, rfl, rfl, rfl, rfl⟩
  · rw [h3]
    cases pyFloat? I.override_lat with
    | none => exact ⟨rfl, rfl, rfl, rfl, rfl⟩
    | some la => exact ⟨rfl, rfl, rfl, rfl, rfl⟩

/-- The demo inputs with an unparseable override latitude typed in. -/
def badOverrideInputs : Inputs :=
  { demoInputs with override_lat := "abc", override_lon := "-74.0060" }

/-- C9 witness: override `("abc", "-74.0060")` produces no artifact. -/
theorem C9_witness :
    (badOverrideInputs.override_lat ≠ "" ∧ badOverrideInputs.override_lon ≠ "" ∧
     pyFloat? badOverrideInputs.override_lat = none) ∧
    ((generate demoWorld [] emptyDisk badOverrideInputs).artifact = none ∧
     (generate demoWorld [] emptyDisk badOverrideInputs).memo = [] ∧
     (generate demoWorld [] emptyDisk badOverrideInputs).disk = emptyDisk ∧
     (generate demoWorld [] emptyDisk badOverrideInputs).geoExternalCalls = 0 ∧
     (generate demoWorld [] emptyDisk badOverrideInputs).netExternalCalls = 0) :=
  ⟨⟨by decide, by decide, by decide⟩,
   C9_unparseable_override_aborts demoWorld [] emptyDisk badOverrideInputs
     (by decide) (by decide) (Or.inl (by decide))⟩

/-- C10: every completed render uses exactly the dpi determined by live mode:
72 when live render is on and 300 otherwise. -/
theorem C10_dpi_determined_by_live_mode (w : World) (memo : StMemo) (disk : CacheRoot)
    (I : Inputs) (hc : coordOk I = true) :
    (generate w memo disk I).artifact.map Artifact.dpi =
      some (if I.live_mode then 72 else 300) := by
  obtain ⟨pt, m2, d2, b, n, heq, -, -⟩ := generate_cases w memo disk I hc
  rw [heq]
  exact finishRender_artifact_dpi w m2 d2 I pt b n

/-- C10 witness: with live mode off, the demo render carries dpi 300. -/
theorem C10_witness :
    coordOk demoInputs = true ∧
    (generate demoWorld [] emptyDisk demoInputs).artifact.map Artifact.dpi =
      some (if demoInputs.live_mode then 72 else 300) :=
  ⟨by decide, C10_dpi_determined_by_live_mode demoWorld [] emptyDisk demoInputs (by decide)⟩

theorem create_poster_netCalls_of_empty (w : World) (disk : CacheRoot) (req : PosterRequest)
    (hnet : disk.net = []) : (create_poster w disk req).netExternalCalls = 1 := by
  unfold create_poster
  rw [hnet]
  rfl

theorem finishRender_netCalls_of_empty (w : World) (m : StMemo) (d : CacheRoot) (I : Inputs)
    (pt : Point) (b : Bool) (n : ℕ) (hnet : d.net = []) :
    (finishRender w m d I pt b n).netExternalCalls = 1 := by
  by_cases h : I.font_family ≠ ""
  · simp only [finishRender, if_pos h]
    exact create_poster_netCalls_of_empty w _ _ (by rw [load_fonts_net, hnet])
  · simp only [finishRender, if_neg h]
    exact create_poster_netCalls_of_empty w _ _ hnet

/-- C8: when exactly one of the two override coordinate fields is nonempty,
the override is silently ignored: geocoding of city and country is performed,
and the run is identical to one with both override fields empty. -/
theorem C8_partial_override_ignored (w : World) (memo : StMemo) (disk : CacheRoot) (I : Inputs)
    (h : (I.override_lat = "" ∧ I.override_lon ≠ "") ∨
         (I.override_lat ≠ "" ∧ I.override_lon = "")) :
    (generate w memo disk I).geocacheInvoked = true ∧
    generate w memo disk I =
      generate w memo disk { I with override_lat := "", override_lon := "" } := by
  have hcond : ¬(I.override_lat ≠ "" ∧ I.override_lon ≠ "") := by
    rcases h with ⟨h1, h2⟩ | ⟨h1, h2⟩
    · exact fun hc => hc.1 h1
    · exact fun hc => hc.2 h2
  have hcond2 : ¬(({ I with override_lat := "", override_lon := "" } : Inputs).override_lat ≠ ""
      ∧ ({ I with override_lat := "", override_lon := "" } : Inputs).override_lon ≠ "") := by
    intro hc
    exact hc.1 rfl
  unfold generate
  rw [if_neg hcond, if_neg hcond2]
  exact ⟨rfl, rfl⟩

/-- The demo inputs with only the override latitude typed in. -/
def halfOverrideInputs : Inputs := { demoInputs with override_lat := "40.7128" }

/-- C8 witness: a lone latitude `40.7128` is ignored and geocoding runs. -/
theorem C8_witness :
    (halfOverrideInputs.override_lat ≠ "" ∧ halfOverrideInputs.override_lon = "") ∧
    ((generate demoWorld [] emptyDisk halfOverrideInputs).geocacheInvoked = true ∧
     generate demoWorld [] emptyDisk halfOverrideInputs =
       generate demoWorld [] emptyDisk
         { halfOverrideInputs with override_lat := "", override_lon := "" }) :=
  ⟨⟨by decide, rfl⟩,
   C8_partial_override_ignored demoWorld [] emptyDisk halfOverrideInputs
     (Or.inr ⟨by decide, rfl⟩)⟩

/-- C5: a failure to fetch a requested font family does not fail the render:
the artifact is still produced, with the font set fallen back to the theme
default font and marked `is_fallback = true`. -/
theorem C5_font_failure_falls_back (w : World) (memo : StMemo) (disk : CacheRoot) (I : Inputs)
    (hc : coordOk I = true) (hf : I.font_family ≠ "")
    (hmiss : lookupA I.font_family disk.fonts = none)
    (hfail : w.fetchFont I.font_family = none) :
    (generate w memo disk I).artifact.isSome = true ∧
    (generate w memo disk I).artifact.map Artifact.fontsUsed =
      some (some { requested_family := some I.font_family
                   resolved := (load_theme I.selected_theme).default_font
                   is_fallback := true }) := by
  obtain ⟨pt, m2, d2, b, n, heq, -, hfonts⟩ := generate_cases w memo disk I hc
  rw [heq]
  refine ⟨finishRender_artifact_isSome w m2 d2 I pt b n, ?_⟩
  rw [finishRender_artifact_fontsUsed w m2 d2 I pt b n, if_pos hf,
    load_fonts_fallback w d2 I.font_family (by rw [hfonts]; exact hmiss) hfail]
  rfl

/-- A world whose font catalog always fails to deliver an asset. -/
def fontFailWorld : World :=
  { geocode := fun _ _ => { lat := 40, lon := -74 }
    fetchNet := fun _ => 0
    fetchFont := fun _ => none }

/-- The demo inputs with a Google font family requested. -/
def fontInputs : Inputs := { demoInputs with font_family := "Roboto" }

/-- C5 witness: requesting Roboto under a failing font catalog still renders,
with the fallback flag set. -/
theorem C5_witness :
    (coordOk fontInputs = true ∧ fontInputs.font_family ≠ "" ∧
     lookupA fontInputs.font_family emptyDisk.fonts = none ∧
     fontFailWorld.fetchFont fontInputs.font_family = none) ∧
    ((generate fontFailWorld [] emptyDisk fontInputs).artifact.isSome = true ∧
     (generate fontFailWorld [] emptyDisk fontInputs).artifact.map Artifact.fontsUsed =
       some (some { requested_family := some fontInputs.font_family
                    resolved := (load_theme fontInputs.selected_theme).default_font
                    is_fallback := true })) :=
  ⟨⟨by decide, by decide, rfl, rfl⟩,
   C5_font_failure_falls_back fontFailWorld [] emptyDisk fontInputs
     (by decide) (by decide) rfl rfl⟩

/-- C2 counterexample: from a fresh session, render New York (one external
geocode call, key cached on disk and in the Streamlit memo), clear the cache,
render again: the second resolution of the previously cached geocode key
makes zero external geocoding calls — it is served from the surviving
in-memory memo rather than performing a fresh external fetch. -/
theorem C2_counterexample :
    (generate demoWorld [] emptyDisk demoInputs).geoExternalCalls = 1 ∧
    (lookupA (geoKey demoInputs.city demoInputs.country)
      (generate demoWorld [] emptyDisk demoInputs).disk.geo).isSome = true ∧
    (generate demoWorld
      (generate demoWorld [] emptyDisk demoInputs).memo
      (clearCache (generate demoWorld [] emptyDisk demoInputs).disk)
      demoInputs).geoExternalCalls = 0 ∧
    (generate demoWorld
      (generate demoWorld [] emptyDisk demoInputs).memo
      (clearCache (generate demoWorld [] emptyDisk demoInputs).disk)
      demoInputs).artifact.isSome = true := by
  refine ⟨by decide, by decide, by decide, by decide⟩

/-- C2 (amended): the clear operation removes the cache root and recreates it
empty, so the next street-network fetch and the next font fetch perform fresh
external calls; a geocode resolution, however, is fetched fresh only when its
raw `(city, country)` pair is absent from the in-memory Streamlit memo — a
pair already resolved in the session is returned from the memo with no
external call. -/
theorem C2_clear_cache_semantics (w : World) (memo : StMemo) (disk : CacheRoot) (I : Inputs)
    (hroot : disk.rootExists = true) (hov : I.override_lat = "") (hf : I.font_family ≠ "") :
    ((clearCache disk).rootExists = true ∧ (clearCache disk).geo = [] ∧
     (clearCache disk).net = [] ∧ (clearCache disk).fonts = []) ∧
    (generate w memo (clearCache disk) I).netExternalCalls = 1 ∧
    (generate w memo (clearCache disk) I).fontExternalCalls = 1 ∧
    (generate w memo (clearCache disk) I).geoExternalCalls =
      (if (lookupA (I.city, I.country) memo).isSome then 0 else 1) := by
  have hcond : ¬(I.override_lat ≠ "" ∧ I.override_lon ≠ "") := fun hcc => hcc.1 hov
  have hclear : clearCache disk = { rootExists := true, geo := [], net := [], fonts := [] } := by
    unfold clearCache
    rw [if_pos hroot]
  rw [hclear]
  refine ⟨⟨rfl, rfl, rfl, rfl⟩, ?_, ?_, ?_⟩
  · unfold generate
    rw [if_neg hcond]
    exact finishRender_netCalls_of_empty w _ _ I _ true _
      (by rw [get_cached_coordinates_net])
  · unfold generate
    rw [if_neg hcond]
    simp only [finishRender_fontExternalCalls, if_pos hf]
    exact load_fonts_miss_calls w _ _ (by rw [get_cached_coordinates_fonts]; rfl)
  · unfold generate
    rw [if_neg hcond]
    simp only [finishRender_geoExternalCalls]
    cases hm : lookupA (I.city, I.country) memo with
    | some p => rw [get_cached_coordinates_memo_hit hm]; simp
    | none =>
      rw [get_cached_coordinates_memo_miss hm,
        @get_coordinates_miss w { rootExists := true, geo := [], net := [], fonts := [] }
          I.city I.country rfl]
      simp

/-- A Streamlit memo already holding the New York resolution. -/
def cachedMemo : StMemo := [(("New York", "USA"), { lat := 40, lon := -74 })]

/-- A populated cache root, as after the New York render. -/
def fullDisk : CacheRoot :=
  { rootExists := true
    geo := [(geoKey "New York" "USA", { lat := 40, lon := -74 })]
    net := [], fonts := [] }

/-- The demo inputs with a font family, used around a cache clear. -/
def clearInputs : Inputs := { demoInputs with font_family := "Roboto" }

/-- C2 witness: clearing a populated root leaves it empty; the following
render fetches network and font data fresh but serves the memoized geocode. -/
theorem C2_clear_cache_witness :
    (fullDisk.rootExists = true ∧ clearInputs.override_lat = "" ∧
     clearInputs.font_family ≠ "") ∧
    (((clearCache fullDisk).rootExists = true ∧ (clearCache fullDisk).geo = [] ∧
      (clearCache fullDisk).net = [] ∧ (clearCache fullDisk).fonts = []) ∧
     (generate demoWorld cachedMemo (clearCache fullDisk) clearInputs).netExternalCalls = 1 ∧
     (generate demoWorld cachedMemo (clearCache fullDisk) clearInputs).fontExternalCalls = 1 ∧
     (generate demoWorld cachedMemo (clearCache fullDisk) clearInputs).geoExternalCalls =
       (if (lookupA (clearInputs.city, clearInputs.country) cachedMemo).isSome then 0 else 1)) :=
  ⟨⟨rfl, rfl, by decide⟩,
   C2_clear_cache_semantics demoWorld cachedMemo fullDisk clearInputs rfl rfl (by decide)⟩

end Map2Poster
